import Mathlib

/-!
Verification of the conversion script `convert_to_onnx.py`.

The script is embedded shallowly: the third-party model library is a black
box, so its observable behaviour (whether it is importable, whether loading
raises, whether exporting raises, and which file a successful export writes)
is an explicit environment parameter `Env`.  The script itself is the pure
function `run : Env → RunResult`, recording exactly the `print` calls, the
files written, the library calls made, and any exception that escapes the
module.
-/

namespace ConvertToOnnx

/-- Python exception classes distinguished by the script's handlers.  All
three are subclasses of `Exception`; the handlers are tried in source order
(`FileNotFoundError`, then `ImportError`, then `Exception`). -/
inductive ExcClass where
  | fileNotFound
  | importError
  | otherError
  deriving DecidableEq

/-- A raised Python exception: its class and its textual message
(`str(e)`, which is what `print(e)` emits). -/
structure Exc where
  cls : ExcClass
  msg : String
  deriving DecidableEq

/-- The keyword arguments of a `model.export(...)` call.  `extra` carries
any keyword argument other than `format` and `imgsz`; in particular an
output-filename argument would appear there. -/
structure ExportArgs where
  format : String
  imgsz : Nat
  extra : List (String × String)
  deriving DecidableEq

/-- A call into the black-box model library made by the script. -/
inductive Event where
  | loadCall
  | exportCall (args : ExportArgs)
  deriving DecidableEq

/-- The behaviour of the environment and of the black-box library on one
run of the script.  `loadExc`/`exportExc` are the exceptions (if any) the
two library calls raise; `exportedFile` is the path a successful export
writes and `exportRet` its return value — both chosen by the library, not
by the script.  `checkpointExists` and `outputFileExists` describe the
working directory; the script itself never inspects either. -/
structure Env where
  ultralyticsInstalled : Bool
  checkpointExists : Bool
  outputFileExists : Bool
  loadExc : Option Exc
  exportExc : Option Exc
  exportRet : String
  exportedFile : String
  deriving DecidableEq

/-- Everything observable about one run of the script. -/
structure RunResult where
  printed : List String
  filesWritten : List String
  events : List Event
  uncaught : Option Exc
  deriving DecidableEq

/-- Line 5: `pytorch_model_file = 'model.pt'`. -/
def pytorch_model_file : String := "model.pt"

/-- Line 8: `onnx_model_file = 'stockmarket-pattern-detection-yolov8.onnx'`. -/
def onnx_model_file : String := "stockmarket-pattern-detection-yolov8.onnx"

/-- Line 12 print argument. -/
def loadingMsg : String := "Loading PyTorch model: " ++ pytorch_model_file ++ "..."

/-- Line 14 print argument. -/
def loadedMsg : String := "Model loaded successfully."

/-- Line 18 print argument. -/
def exportingMsg : String := "Exporting model to ONNX: " ++ onnx_model_file ++ "..."

/-- Lines 21-24: the success banner. -/
def successBanner : List String :=
  ["\n---",
   "Success! \x27" ++ onnx_model_file ++ "\x27 has been created.",
   "You can now run your MATLAB backtester.",
   "---"]

/-- Lines 27-31: the `except FileNotFoundError` handler output. -/
def fileNotFoundMsgs : List String :=
  ["\n--- ERROR ---",
   "File not found: " ++ pytorch_model_file,
   "Please download \x27model.pt\x27 from the GitHub repository",
   "and place it in the same folder as this script.",
   "---"]

/-- Lines 33-37: the `except ImportError` handler output. -/
def dependencyMsgs : List String :=
  ["\n--- ERROR ---",
   "The \x27ultralytics\x27 library is not found.",
   "Please install it by running:",
   "pip install ultralytics",
   "---"]

/-- Lines 39-41: the `except Exception as e` handler output. -/
def genericErrorMsgs (e : Exc) : List String :=
  ["\n--- AN ERROR OCCURRED ---", e.msg, "---"]

/-- Line 19: the literal call site `model.export(format='onnx', imgsz=640)`
— exactly two keyword arguments, no output filename. -/
def exportCallArgs : ExportArgs := { format := "onnx", imgsz := 640, extra := [] }

/-- Intermediate state of the `try` body: output so far, files written,
library calls made, and the exception (if any) leaving the body. -/
structure BodyResult where
  printed : List String
  filesWritten : List String
  events : List Event
  exc : Option Exc
  deriving DecidableEq

/-- Lines 10-24: the `try` body.  Print the loading message, call
`YOLO(pytorch_model_file)`; on success print two messages, call
`model.export(format='onnx', imgsz=640)` (ignoring its return value); on
success of that, print the banner.  A successful export writes whichever
file the library chooses; the body stops at the first raised exception. -/
def tryBody (env : Env) : BodyResult :=
  match env.loadExc with
  | some e =>
      { printed := [loadingMsg], filesWritten := [], events := [Event.loadCall],
        exc := some e }
  | none =>
      match env.exportExc with
      | some e =>
          { printed := [loadingMsg, loadedMsg, exportingMsg],
            filesWritten := [],
            events := [Event.loadCall, Event.exportCall exportCallArgs],
            exc := some e }
      | none =>
          { printed := [loadingMsg, loadedMsg, exportingMsg] ++ successBanner,
            filesWritten := [env.exportedFile],
            events := [Event.loadCall, Event.exportCall exportCallArgs],
            exc := none }

/-- Lines 26-41: dispatch of an exception leaving the `try` body to the
three handlers, in source order. -/
def handlerMsgs (e : Exc) : List String :=
  match e.cls with
  | ExcClass.fileNotFound => fileNotFoundMsgs
  | ExcClass.importError => dependencyMsgs
  | ExcClass.otherError => genericErrorMsgs e

/-- The whole script.  Line 1, `from ultralytics import YOLO`, runs before
the `try` statement: if the library is absent the `ImportError` it raises
is uncaught and nothing below line 1 executes.  Otherwise the `try` body
runs and any exception leaving it is handled; every handler just prints,
so the module then ends normally. -/
def run (env : Env) : RunResult :=
  if env.ultralyticsInstalled then
    let b := tryBody env
    match b.exc with
    | none =>
        { printed := b.printed, filesWritten := b.filesWritten,
          events := b.events, uncaught := none }
    | some e =>
        { printed := b.printed ++ handlerMsgs e, filesWritten := b.filesWritten,
          events := b.events, uncaught := none }
  else
    { printed := [], filesWritten := [], events := [],
      uncaught := some { cls := ExcClass.importError,
                         msg := "No module named \x27ultralytics\x27" } }

/-- The process exit status: a CPython process whose module ends normally
exits 0; an uncaught exception makes it exit 1 (after a traceback). -/
def exitCode (r : RunResult) : Nat :=
  match r.uncaught with
  | none => 0
  | some _ => 1

/-- An environment in which the library is absent. -/
def envNoDep : Env :=
  { ultralyticsInstalled := false, checkpointExists := true,
    outputFileExists := false, loadExc := none, exportExc := none,
    exportRet := "", exportedFile := "" }

/-- An environment in which loading and exporting succeed and the library
writes `model.onnx` (the checkpoint path with its suffix replaced, which is
how the library names an export given no filename argument). -/
def envLibNames : Env :=
  { ultralyticsInstalled := true, checkpointExists := true,
    outputFileExists := false, loadExc := none, exportExc := none,
    exportRet := "model.onnx", exportedFile := "model.onnx" }

/-- An environment in which the checkpoint is absent and loading raises
`FileNotFoundError`. -/
def envNoCkpt : Env :=
  { ultralyticsInstalled := true, checkpointExists := false,
    outputFileExists := false,
    loadExc := some { cls := ExcClass.fileNotFound,
                      msg := "No such file or directory: \x27model.pt\x27" },
    exportExc := none, exportRet := "", exportedFile := "" }

/-- An environment in which the checkpoint exists but is not a valid model
archive, so loading raises a generic exception. -/
def envBadCkpt : Env :=
  { ultralyticsInstalled := true, checkpointExists := true,
    outputFileExists := false,
    loadExc := some { cls := ExcClass.otherError,
                      msg := "invalid load key" },
    exportExc := none, exportRet := "", exportedFile := "" }

/-- Helper: once the import on line 1 has succeeded, every exception the
`try` body raises is caught by one of the three handlers, so nothing
escapes the module. -/
theorem uncaught_eq_none_of_installed (env : Env)
    (h : env.ultralyticsInstalled = true) : (run env).uncaught = none := by
  obtain ⟨u, c, o, l, x, r, f⟩ := env
  cases u <;> cases l <;> cases x <;> simp_all [run, tryBody]

/-- C1: the claim says that with ultralytics absent the script prints the
installation instruction whether or not `model.pt` exists.  In the code the
`from ultralytics import YOLO` on line 1 precedes the `try` statement, so
the `ImportError` it raises is uncaught: the script prints nothing at all
and dies with a traceback — even though the unreachable `except
ImportError` handler (lines 32-37) holds exactly the promised diagnostic. -/
theorem c1_missing_dep_prints_nothing :
    (∀ b : Bool,
      (run { envNoDep with checkpointExists := b }).printed = [] ∧
      (run { envNoDep with checkpointExists := b }).uncaught ≠ none) ∧
    "pip install ultralytics" ∈ dependencyMsgs := by
  decide

/-- C2 counterexample: a run with a valid checkpoint and the library
installed in which the export call — to which the script passes no output
filename — writes `model.onnx`.  No file named
`stockmarket-pattern-detection-yolov8.onnx` is created, yet the banner
still names it. -/
theorem c2_counterexample :
    envLibNames.ultralyticsInstalled = true ∧
    envLibNames.loadExc = none ∧
    envLibNames.exportExc = none ∧
    (run envLibNames).filesWritten = ["model.onnx"] ∧
    onnx_model_file ∉ (run envLibNames).filesWritten ∧
    ("Success! \x27" ++ onnx_model_file ++ "\x27 has been created.")
      ∈ (run envLibNames).printed := by
  decide

/-- C2 amended: on a valid run the script prints the success banner naming
`stockmarket-pattern-detection-yolov8.onnx`, but the file actually created
is whichever one the export call writes — the script passes no filename
and performs no rename, so it does not itself ensure the banner's name. -/
theorem c2_valid_run_banner_and_library_file (env : Env)
    (hdep : env.ultralyticsInstalled = true)
    (hload : env.loadExc = none)
    (hexp : env.exportExc = none) :
    (run env).filesWritten = [env.exportedFile] ∧
    (run env).uncaught = none ∧
    ∀ s ∈ successBanner, s ∈ (run env).printed := by
  refine ⟨?_, ?_, ?_⟩
  · simp [run, tryBody, hdep, hload, hexp]
  · simp [run, tryBody, hdep, hload, hexp]
  · intro s hs
    simp only [run, tryBody, hdep, hload, hexp, if_true]
    exact List.mem_append_right _ hs

/-- C2 witness at a concrete valid environment. -/
theorem c2_valid_run_banner_and_library_file_witness :
    (run envLibNames).filesWritten = [envLibNames.exportedFile] ∧
    (run envLibNames).uncaught = none ∧
    ∀ s ∈ successBanner, s ∈ (run envLibNames).printed :=
  c2_valid_run_banner_and_library_file envLibNames rfl rfl rfl

/-- C3: if the checkpoint does not exist and the load call therefore
raises `FileNotFoundError`, the script prints the missing-input diagnostic
(lines 27-31) and writes no output file. -/
theorem c3_missing_input (env : Env) (e : Exc)
    (hdep : env.ultralyticsInstalled = true)
    (_hck : env.checkpointExists = false)
    (hload : env.loadExc = some e)
    (hcls : e.cls = ExcClass.fileNotFound) :
    (run env).printed = loadingMsg :: fileNotFoundMsgs ∧
    (run env).filesWritten = [] := by
  simp [run, tryBody, hdep, hload, handlerMsgs, hcls]

/-- C3 witness at a concrete environment with an absent checkpoint. -/
theorem c3_missing_input_witness :
    (run envNoCkpt).printed = loadingMsg :: fileNotFoundMsgs ∧
    (run envNoCkpt).filesWritten = [] :=
  c3_missing_input envNoCkpt _ rfl rfl rfl rfl

/-- C4: if the checkpoint exists but load or export raises an exception
that is neither `FileNotFoundError` nor `ImportError`, the script prints
the generic header followed by the exception's own message, and writes no
output file. -/
theorem c4_unclassified (env : Env) (e : Exc)
    (hdep : env.ultralyticsInstalled = true)
    (_hck : env.checkpointExists = true)
    (hraise : env.loadExc = some e ∨ (env.loadExc = none ∧ env.exportExc = some e))
    (hcls : e.cls = ExcClass.otherError) :
    List.IsSuffix (genericErrorMsgs e) ((run env).printed) ∧
    "\n--- AN ERROR OCCURRED ---" ∈ (run env).printed ∧
    e.msg ∈ (run env).printed ∧
    (run env).filesWritten = [] := by
  rcases hraise with h | ⟨h1, h2⟩
  · have hp : (run env).printed = [loadingMsg] ++ genericErrorMsgs e := by
      simp [run, tryBody, hdep, h, handlerMsgs, hcls]
    refine ⟨⟨[loadingMsg], hp.symm⟩, ?_, ?_, ?_⟩
    · rw [hp]; exact List.mem_append_right _ (by simp [genericErrorMsgs])
    · rw [hp]; exact List.mem_append_right _ (by simp [genericErrorMsgs])
    · simp [run, tryBody, hdep, h]
  · have hp : (run env).printed
        = [loadingMsg, loadedMsg, exportingMsg] ++ genericErrorMsgs e := by
      simp [run, tryBody, hdep, h1, h2, handlerMsgs, hcls]
    refine ⟨⟨[loadingMsg, loadedMsg, exportingMsg], hp.symm⟩, ?_, ?_, ?_⟩
    · rw [hp]; exact List.mem_append_right _ (by simp [genericErrorMsgs])
    · rw [hp]; exact List.mem_append_right _ (by simp [genericErrorMsgs])
    · simp [run, tryBody, hdep, h1, h2]

/-- C4 witness at a concrete environment with a corrupt checkpoint. -/
theorem c4_unclassified_witness :
    List.IsSuffix
      (genericErrorMsgs { cls := ExcClass.otherError, msg := "invalid load key" })
      ((run envBadCkpt).printed) ∧
    "\n--- AN ERROR OCCURRED ---" ∈ (run envBadCkpt).printed ∧
    "invalid load key" ∈ (run envBadCkpt).printed ∧
    (run envBadCkpt).filesWritten = [] :=
  c4_unclassified envBadCkpt _ rfl rfl (Or.inl rfl) rfl

/-- C5: every export call the script makes carries exactly
`format = "onnx"` and `imgsz = 640` and nothing else — in particular no
output filename. -/
theorem c5_export_args (env : Env) (a : ExportArgs)
    (h : Event.exportCall a ∈ (run env).events) :
    a.format = "onnx" ∧ a.imgsz = 640 ∧ a.extra = [] := by
  have ha : a = exportCallArgs := by
    obtain ⟨u, c, o, l, x, r, f⟩ := env
    cases u <;> cases l <;> cases x <;> simp_all [run, tryBody]
  subst ha
  exact ⟨rfl, rfl, rfl⟩

/-- C5 witness: the concrete valid run makes an export call, and that call
has the stated arguments. -/
theorem c5_export_args_witness :
    Event.exportCall exportCallArgs ∈ (run envLibNames).events ∧
    exportCallArgs.format = "onnx" ∧ exportCallArgs.imgsz = 640 ∧
    exportCallArgs.extra = [] :=
  ⟨by decide, c5_export_args envLibNames exportCallArgs (by decide)⟩

/-- C6 counterexample: on the missing-dependency failure path the process
does not return normally — the import error is uncaught, nothing is
printed, and the process exits with status 1, distinguishable from
success. -/
theorem c6_counterexample :
    (run envNoDep).uncaught ≠ none ∧
    exitCode (run envNoDep) = 1 ∧
    (run envNoDep).printed = [] := by
  decide

/-- C6 amended: on every failure path that arises once the import has
succeeded (missing-input, unclassified, and any `ImportError` raised
inside the `try` body), the script prints its diagnostic and the process
exits 0, indistinguishable from success; only the missing-dependency path
exits abnormally. -/
theorem c6_caught_paths_exit_zero (env : Env)
    (h : env.ultralyticsInstalled = true) :
    exitCode (run env) = 0 := by
  rw [exitCode, uncaught_eq_none_of_installed env h]

/-- C6 witness at a concrete environment with the library installed. -/
theorem c6_caught_paths_exit_zero_witness :
    exitCode (run envNoCkpt) = 0 :=
  c6_caught_paths_exit_zero envNoCkpt rfl

/-- C7: whenever the export step is attempted, the import and the load
step succeeded first, and the run's library-call trace is exactly the load
call followed by that single export call. -/
theorem c7_sequencing (env : Env) (a : ExportArgs)
    (h : Event.exportCall a ∈ (run env).events) :
    env.ultralyticsInstalled = true ∧ env.loadExc = none ∧
    (run env).events = [Event.loadCall, Event.exportCall a] := by
  obtain ⟨u, c, o, l, x, r, f⟩ := env
  cases u <;> cases l <;> cases x <;> simp_all [run, tryBody]

/-- C7 witness at the concrete valid run. -/
theorem c7_sequencing_witness :
    envLibNames.ultralyticsInstalled = true ∧ envLibNames.loadExc = none ∧
    (run envLibNames).events = [Event.loadCall, Event.exportCall exportCallArgs] :=
  c7_sequencing envLibNames exportCallArgs (by decide)

/-- C8: a second run over the same valid checkpoint behaves exactly like
the first: the script never inspects whether the output file already
exists, so a pre-existing artifact changes nothing and both runs end
normally with the success banner. -/
theorem c8_rerun_overwrites (env : Env)
    (hdep : env.ultralyticsInstalled = true)
    (hload : env.loadExc = none)
    (hexp : env.exportExc = none) :
    (run env).uncaught = none ∧
    run { env with outputFileExists := true }
      = run { env with outputFileExists := false } ∧
    ∀ s ∈ successBanner, s ∈ (run { env with outputFileExists := true }).printed := by
  refine ⟨?_, ?_, ?_⟩
  · simp [run, tryBody, hdep, hload, hexp]
  · simp [run, tryBody, hdep, hload, hexp]
  · intro s hs
    simp only [run, tryBody, hdep, hload, hexp, if_true]
    exact List.mem_append_right _ hs

/-- C8 witness at the concrete valid run. -/
theorem c8_rerun_overwrites_witness :
    (run envLibNames).uncaught = none ∧
    run { envLibNames with outputFileExists := true }
      = run { envLibNames with outputFileExists := false } ∧
    ∀ s ∈ successBanner,
      s ∈ (run { envLibNames with outputFileExists := true }).printed :=
  c8_rerun_overwrites envLibNames rfl rfl rfl

/-- C9: once the import on line 1 has succeeded, no exception raised
inside the load-and-export body escapes: `FileNotFoundError`,
`ImportError` and every other `Exception` subclass are all caught by the
three handlers, and the module ends normally. -/
theorem c9_no_escape (env : Env)
    (h : env.ultralyticsInstalled = true) :
    (run env).uncaught = none :=
  uncaught_eq_none_of_installed env h

/-- C9 witness at a concrete environment whose body raises. -/
theorem c9_no_escape_witness :
    (run envBadCkpt).uncaught = none :=
  c9_no_escape envBadCkpt rfl

/-- C10: on every successful run the banner names the constant
`stockmarket-pattern-detection-yolov8.onnx`, and the printed output is
unchanged under any value the export call returns or any path it actually
writes. -/
theorem c10_banner_constant (env : Env)
    (hdep : env.ultralyticsInstalled = true)
    (hload : env.loadExc = none)
    (hexp : env.exportExc = none) :
    ("Success! \x27" ++ onnx_model_file ++ "\x27 has been created.")
      ∈ (run env).printed ∧
    ∀ r f, (run { env with exportRet := r, exportedFile := f }).printed
      = (run env).printed := by
  refine ⟨?_, ?_⟩ <;>
    simp [run, tryBody, hdep, hload, hexp, successBanner]

/-- C10 witness at the concrete valid run. -/
theorem c10_banner_constant_witness :
    ("Success! \x27" ++ onnx_model_file ++ "\x27 has been created.")
      ∈ (run envLibNames).printed ∧
    ∀ r f, (run { envLibNames with exportRet := r, exportedFile := f }).printed
      = (run envLibNames).printed :=
  c10_banner_constant envLibNames rfl rfl rfl

end ConvertToOnnx
